import Mathlib

/-!
Shallow embedding of the submission-intake endpoint of the SF Garbage
Reporter (src/app/api/submit/route.ts).

Modelling conventions:
* JS numbers (lat, lon, accuracy) are rationals; epoch-millisecond clocks
  are integers.  `Math.round x` is `⌊x + 1/2⌋` (JS rounds half toward +∞).
* The outbound `fetch` to the email transport is an oracle parameter
  (`TransportOutcome`): success with an id, a non-2xx response, or a
  timeout (the `AbortSignal` abort surfaces as a thrown error, like any
  other fetch failure).
* The in-memory `Map` `recentSubmissions` is an association list with
  unique keys; `set` replaces any existing binding.  The idempotency key,
  a comma-joined string in JS, is modelled as the tuple of its components
  (they are comma-free — two rounded numbers, a minute bucket, and a UUID
  — so the JS string encoding is injective on them).
* `Math.random() < 0.01` (the sweep trigger) and `Date.now()` are explicit
  parameters of the handler.
-/

namespace SFGR

/-- A payload that already parsed as JSON with the right field types; the
schema's range and format checks are modelled separately
(`submitSchemaCheck`). -/
structure SubmitPayload where
  lat : ℚ
  lon : ℚ
  accuracy : Option ℚ
  timestamp : Option ℤ
  client_nonce : String
  message : Option String
  photoBase64 : Option String
deriving DecidableEq, Repr

/-- One hex digit, case-insensitive. -/
def isHexDigit (c : Char) : Bool :=
  (decide ('0' ≤ c) && decide (c ≤ '9'))
    || (decide ('a' ≤ c) && decide (c ≤ 'f'))
    || (decide ('A' ≤ c) && decide (c ≤ 'F'))

/-- One character of the UUID shape: a hyphen at offsets 8, 13, 18, 23 and
a hex digit everywhere else. -/
def uuidCharOk (i : ℕ) (c : Char) : Bool :=
  if i = 8 ∨ i = 13 ∨ i = 18 ∨ i = 23 then c = '-' else isHexDigit c

/-- Model of zod's `z.string().uuid()` check: the canonical 8-4-4-4-12
hex-with-hyphens shape, case-insensitive. -/
def isUuid (s : String) : Bool :=
  let cs := s.toList
  decide (cs.length = 36)
    && (List.range 36).all (fun i => uuidCharOk i (cs.getD i ' '))

/-- The `submitSchema` range/format checks (src line 5-13): `lat` in
[-90, 90], `lon` in [-180, 180], `client_nonce` a UUID; `accuracy`,
`timestamp`, `message`, `photoBase64` are optional and unconstrained
beyond their type. -/
def submitSchemaCheck (p : SubmitPayload) : Bool :=
  decide (-90 ≤ p.lat) && decide (p.lat ≤ 90)
    && decide (-180 ≤ p.lon) && decide (p.lon ≤ 180)
    && isUuid p.client_nonce

/-- The configured San Francisco bounding box (src line 16-21). -/
structure Bounds where
  north : ℚ
  south : ℚ
  east : ℚ
  west : ℚ

def SF_BOUNDS : Bounds :=
  { north := 37.8324, south := 37.7049, east := -122.3482, west := -122.5277 }

/-- src line 35-37. -/
def isInSanFrancisco (lat lon : ℚ) : Bool :=
  decide (SF_BOUNDS.south ≤ lat) && decide (lat ≤ SF_BOUNDS.north)
    && decide (SF_BOUNDS.west ≤ lon) && decide (lon ≤ SF_BOUNDS.east)

/-- JS `Math.round`: nearest integer, ties toward +∞. -/
def jsRound (q : ℚ) : ℤ := ⌊q + 1/2⌋

/-- JS truthiness of an optional string (`undefined` and `""` are falsy). -/
def jsTruthyStr (v : Option String) : Bool :=
  match v with
  | some s => !(s = "")
  | none => false

/-- JS `v || d` on an optional string: `d` when `v` is `undefined` or `""`. -/
def jsOrStr (v : Option String) (d : String) : String :=
  match v with
  | some s => if s = "" then d else s
  | none => d

/-- Left-pad a natural number with zeros to the given width. -/
def zeroPad (width : ℕ) (n : ℕ) : String :=
  let s := toString n
  String.mk (List.replicate (width - s.length) '0') ++ s

/-- Proleptic-Gregorian date (year, month, day) of a day count relative to
1970-01-01 (the civil-from-days algorithm used by every epoch-to-UTC
conversion, here with Euclidean division on integers). -/
def civilFromDays (d0 : ℤ) : ℤ × ℤ × ℤ :=
  let z := d0 + 719468
  let era := Int.ediv z 146097
  let doe := z - era * 146097
  let yoe := Int.ediv (doe - Int.ediv doe 1460 + Int.ediv doe 36524 - Int.ediv doe 146096) 365
  let y := yoe + era * 400
  let doy := doe - (365 * yoe + Int.ediv yoe 4 - Int.ediv yoe 100)
  let mp := Int.ediv (5 * doy + 2) 153
  let day := doy - Int.ediv (153 * mp + 2) 5 + 1
  let month := mp + (if mp < 10 then 3 else -9)
  (if month ≤ 2 then y + 1 else y, month, day)

/-- JS `new Date(ms).toISOString()` for epoch milliseconds, modelled for
years 0000-9999 (the six-digit expanded-year format for dates outside that
range is not modelled). -/
def epochMsToIso (ms : ℤ) : String :=
  let days := Int.ediv ms 86400000
  let msod := Int.emod ms 86400000
  let ymd := civilFromDays days
  let hh := Int.ediv msod 3600000
  let mi := Int.ediv (Int.emod msod 3600000) 60000
  let ss := Int.ediv (Int.emod msod 60000) 1000
  let mss := Int.emod msod 1000
  zeroPad 4 ymd.1.toNat ++ "-" ++ zeroPad 2 ymd.2.1.toNat ++ "-" ++ zeroPad 2 ymd.2.2.toNat
    ++ "T" ++ zeroPad 2 hh.toNat ++ ":" ++ zeroPad 2 mi.toNat ++ ":" ++ zeroPad 2 ss.toNat
    ++ "." ++ zeroPad 3 mss.toNat ++ "Z"

/-- JS `Number.prototype.toFixed`: sign first, then the magnitude rounded
to `f` fractional digits, ties away from zero. -/
def toFixedQ (q : ℚ) (f : ℕ) : String :=
  let sgn := if q < 0 then "-" else ""
  let n : ℤ := ⌊|q| * (10 : ℚ) ^ f + 1/2⌋
  let ip := Int.ediv n ((10 : ℤ) ^ f)
  let fp := Int.emod n ((10 : ℤ) ^ f)
  if f = 0 then sgn ++ toString ip.toNat
  else sgn ++ toString ip.toNat ++ "." ++ zeroPad f fp.toNat

/-- The `When:` timestamp of the report body: `data.timestamp || Date.now()`
(src line 65); a supplied timestamp of `0` is falsy in JS and falls back to
the server receipt time. -/
def effectiveWhen (timestamp : Option ℤ) (now : ℤ) : ℤ :=
  match timestamp with
  | some t => if t = 0 then now else t
  | none => now

/-- The accuracy part of the `Where:` line (src line 66):
`data.accuracy ? "(±" + Math.round(data.accuracy) + "m)" : ""`.  A supplied
accuracy of `0` is falsy in JS and yields the empty string. -/
def accMark (accuracy : Option ℚ) : String :=
  match accuracy with
  | some a => if a = 0 then "" else "(±" ++ toString (jsRound a) ++ "m)"
  | none => ""

/-- The user-message part of the body (src line 72):
`data.message || "No message provided."`; the empty string is falsy in JS
and also yields the placeholder. -/
def msgOrPlaceholder (message : Option String) : String :=
  match message with
  | some m => if m = "" then "No message provided." else m
  | none => "No message provided."

/-- The plain-text report body (the `text` template literal of src line
63-74).  The JS template starts with a newline and ends with a newline plus
indentation; its `.trim()` removes exactly those (the first and last
non-whitespace characters of the template are the fixed `Source:` label and
the closing `---`), so the trimmed string is built directly. -/
def buildEmailText (data : SubmitPayload) (correlationId : String) (now : ℤ) : String :=
  "Source: QR-Driven Garbage Reporting Webapp\nWhen: "
    ++ epochMsToIso (effectiveWhen data.timestamp now)
    ++ "\nWhere: " ++ toFixedQ data.lat 6 ++ "," ++ toFixedQ data.lon 6 ++ " "
    ++ accMark data.accuracy
    ++ "\nReport ID: " ++ data.client_nonce
    ++ "\nCorrelation ID: " ++ correlationId
    ++ "\n\n---\nUser Message:\n"
    ++ msgOrPlaceholder data.message
    ++ "\n---"

/-- One attachment of the outbound email (src line 53-56).  `content` is
`photoBase64.split(",")[1]`, which in JS is `undefined` (here `none`) when
the string contains no comma. -/
structure Attachment where
  filename : String
  content : Option String
deriving DecidableEq, Repr, Inhabited

/-- JS `String.prototype.split` with a single-character separator, on the
character list: every occurrence of the separator starts a new segment, and
the empty string yields one empty segment (`"".split(",")` is `[""]`). -/
def splitOnChar (sep : Char) : List Char → List (List Char)
  | [] => [[]]
  | c :: rest =>
    if c = sep then [] :: splitOnChar sep rest
    else
      match splitOnChar sep rest with
      | h :: t => (c :: h) :: t
      | [] => [[c]]

/-- JS `s.split(sep)` for a one-character separator. -/
def jsSplit (s : String) (sep : Char) : List String :=
  (splitOnChar sep s.toList).map String.mk

/-- src line 49-57: one attachment iff `data.photoBase64` is truthy (a
supplied empty string is falsy in JS and yields no attachment); its content
is `photoBase64.split(",")[1]`, everything between the first and second
comma of the data URL. -/
def buildAttachments (photoBase64 : Option String) : List Attachment :=
  match photoBase64 with
  | some s =>
    if s = "" then []
    else [{ filename := "photo.jpg", content := (jsSplit s ',')[1]? }]
  | none => []

/-- Operator-supplied configuration (environment variables in the source). -/
structure Config where
  resendApiKey : Option String
  senderEmail : Option String
  cityOperationsEmail : Option String
deriving DecidableEq, Repr

/-- The JSON body of the outbound transport call (src line 59-76); `from`
and `to` are Lean keywords, rendered as `fromAddr` and `toAddr`. -/
structure EmailPayload where
  fromAddr : String
  toAddr : String
  subject : String
  text : String
  attachments : List Attachment
deriving DecidableEq, Repr

/-- src line 59-76. -/
def buildEmailPayload (cfg : Config) (data : SubmitPayload) (correlationId : String)
    (now : ℤ) : EmailPayload :=
  { fromAddr := jsOrStr cfg.senderEmail "reports@qr-garbage-reporter.com"
    toAddr := jsOrStr cfg.cityOperationsEmail "operations@sf.gov"
    subject := "Litter report — " ++ toFixedQ data.lat 6 ++ "," ++ toFixedQ data.lon 6
      ++ " — QR Reporter"
    text := buildEmailText data correlationId now
    attachments := buildAttachments data.photoBase64 }

/-- Oracle for the single outbound `fetch` to the email transport: a 2xx
response carrying an assigned id, a non-2xx response, or a thrown error
(the 15-second `AbortSignal` timeout surfaces as a throw, like a network
failure). -/
inductive TransportOutcome where
  | ok (id : String)
  | httpError (status : ℕ) (body : String)
  | timeout
deriving DecidableEq, Repr

/-- The value of `sendEmailReport`'s promise:
`{success:true, reference}` or `{success:false, error}`. -/
inductive EmailResult where
  | ok (reference : String)
  | failed (error : String)
deriving DecidableEq, Repr

/-- src line 39-106.  Returns the result together with whether the outbound
`fetch` was reached: a missing (or empty, hence falsy) `RESEND_API_KEY`
throws before the call is attempted; otherwise the call happens and its
outcome is read off the transport oracle.  Error detail strings are only
ever logged, never returned to the client. -/
def sendEmailReport (cfg : Config) (_data : SubmitPayload) (_correlationId : String)
    (transport : TransportOutcome) : EmailResult × Bool :=
  if jsTruthyStr cfg.resendApiKey then
    match transport with
    | .ok id => (.ok id, true)
    | .httpError st body => (.failed ("Email API error: " ++ toString st ++ " " ++ body), true)
    | .timeout => (.failed "This operation was aborted", true)
  else (.failed "RESEND_API_KEY not configured", false)

/-- The two JSON response shapes of the endpoint:
`{status:"success", reference}` and `{status:"error", code, message}`. -/
inductive ResponseBody where
  | success (reference : String)
  | error (code : String) (message : String)
deriving DecidableEq, Repr, Inhabited

/-- One record of the `recentSubmissions` map (src line 109). -/
structure DedupRecord where
  timestamp : ℤ
  response : ResponseBody
deriving DecidableEq, Repr, Inhabited

/-- The idempotency key (src line 111-116).  The JS key is the string
`roundedLat + "," + roundedLon + "," + minuteBucket + "," + client_nonce`;
its four components are comma-free (two decimal numbers, an integer, and a
nonce that passed the UUID check), so the encoding is injective and the key
is modelled as the tuple of components. -/
abbrev IdKey := ℚ × ℚ × ℤ × String

/-- src line 111-116: latitude and longitude rounded to 4 decimal places
(`Math.round(x * 10000) / 10000`), the current minute bucket
(`Math.floor(Date.now() / 60000)`), and the client nonce. -/
def getIdempotencyKey (data : SubmitPayload) (now : ℤ) : IdKey :=
  ((jsRound (data.lat * 10000) : ℚ) / 10000,
   (jsRound (data.lon * 10000) : ℚ) / 10000,
   Int.ediv now 60000,
   data.client_nonce)

/-- The in-memory `recentSubmissions` `Map` (src line 109), as an
association list with unique keys; a JS `Map` iterates in insertion order,
which only the order-independent sweep observes here. -/
abbrev Store := List (IdKey × DedupRecord)

/-- Map lookup, `recentSubmissions.get(key)` (src line 136). -/
def storeGet (s : Store) (k : IdKey) : Option DedupRecord :=
  (s.find? (fun e => decide (e.1 = k))).map (·.2)

/-- Map write, `recentSubmissions.set(key, value)` (src line 168): replaces
any existing binding of the key. -/
def storeSet (s : Store) (k : IdKey) (v : DedupRecord) : Store :=
  s.filter (fun e => !decide (e.1 = k)) ++ [(k, v)]

/-- The opportunistic sweep (src line 171-178): drop every record strictly
older than `now - 300000`. -/
def sweepStore (s : Store) (now : ℤ) : Store :=
  s.filter (fun e => !decide (e.2.timestamp < now - 300000))

/-- The duplicate lookup (src line 136-140): a record is served only while
`Date.now() - existing.timestamp < 300000`; an older record is ignored
(lazy expiry). -/
def dedupHit (s : Store) (k : IdKey) (now : ℤ) : Option ResponseBody :=
  match storeGet s k with
  | some r => if now - r.timestamp < 300000 then some r.response else none
  | none => none

/-- Everything the handler returns and leaves behind: HTTP status, JSON
body, the `recentSubmissions` map after the request, and whether the
outbound transport `fetch` was reached during the request. -/
structure PostOutcome where
  status : ℕ
  body : ResponseBody
  store : Store
  transportInvoked : Bool
deriving DecidableEq, Repr

/-- The POST handler (src line 118-207) on a payload that parsed as JSON
with well-typed fields.  Explicit parameters stand for the handler's
environment: the configuration, whether the (commented-out, src line
144-154) bounding-box gate is compiled in, `Date.now()` at receipt, the
transport oracle, and whether `Math.random() < 0.01` triggered the sweep.
Flow: schema check (a `ZodError` is caught as 400 `bad_request`), duplicate
lookup (cached response returned as-is, HTTP 200), the optional bounds
gate, dispatch (any `sendEmailReport` failure is thrown and caught as 500
`server_error`, writing nothing), then the record write followed by the
optional sweep. -/
def POST (cfg : Config) (boundsCheckEnabled : Bool) (now : ℤ)
    (transport : TransportOutcome) (sweepTriggered : Bool)
    (store : Store) (payload : SubmitPayload) : PostOutcome :=
  if submitSchemaCheck payload then
    let key := getIdempotencyKey payload now
    match dedupHit store key now with
    | some cached =>
      { status := 200, body := cached, store := store, transportInvoked := false }
    | none =>
      if boundsCheckEnabled && !isInSanFrancisco payload.lat payload.lon then
        { status := 400,
          body := .error "out_of_bounds" "Location must be within San Francisco city limits",
          store := store, transportInvoked := false }
      else
        match sendEmailReport cfg payload "" transport with
        | (.ok ref, invoked) =>
          let response := ResponseBody.success ref
          let s1 := storeSet store key { timestamp := now, response := response }
          let s2 := if sweepTriggered then sweepStore s1 now else s1
          { status := 200, body := response, store := s2, transportInvoked := invoked }
        | (.failed _, invoked) =>
          { status := 500, body := .error "server_error" "Internal server error",
            store := store, transportInvoked := invoked }
  else
    { status := 400, body := .error "bad_request" "Invalid request data",
      store := store, transportInvoked := false }

/-- A store in which every record caches a success envelope — the only
kind of record the handler ever writes (src line 163-168). -/
def storeWellFormed (s : Store) : Prop :=
  ∀ e ∈ s, ∃ ref, e.2.response = ResponseBody.success ref

/-- The payload of the spec's concrete success scenario (§8). -/
def samplePayload : SubmitPayload :=
  { lat := 37.7749, lon := -122.4194, accuracy := some 10, timestamp := none,
    client_nonce := "a0d4b216-f4cf-4219-822b-f83e49a6cccb",
    message := some "Boxes behind bus stop", photoBase64 := none }

/-- A well-typed payload with integer coordinates, convenient for concrete
evaluation. -/
def plainPayload : SubmitPayload :=
  { lat := 37, lon := -122, accuracy := none, timestamp := none,
    client_nonce := "a0d4b216-f4cf-4219-822b-f83e49a6cccb",
    message := none, photoBase64 := none }

/-- A configuration with the transport key present. -/
def keyedConfig : Config :=
  { resendApiKey := some "re_key", senderEmail := none, cityOperationsEmail := none }

/-- A payload that differs from `plainPayload` in the message, the
accuracy, and the 5th decimal of the latitude (37.00002 also rounds to 37
at four decimals), yet shares its deduplication fingerprint. -/
def dupPayload : SubmitPayload :=
  { plainPayload with lat := 37.00002, accuracy := some 12, message := some "edited" }

/-- A payload just inside the northern edge of the bounding box; its
latitude rounds to 37.8324 at four decimals. -/
def inBoundsPayload : SubmitPayload :=
  { plainPayload with lat := 37.83238, lon := -122.4 }

/-- A payload just outside the northern edge of the bounding box
(37.83242 > 37.8324); its latitude also rounds to 37.8324 at four
decimals, so it shares its fingerprint with `inBoundsPayload`. -/
def outOfBoundsPayload : SubmitPayload :=
  { plainPayload with lat := 37.83242, lon := -122.4 }

section StoreLemmas

theorem storeGet_storeSet_self (s : Store) (k : IdKey) (v : DedupRecord) :
    storeGet (storeSet s k v) k = some v := by
  unfold storeGet storeSet
  induction s with
  | nil => simp
  | cons e t ih =>
    by_cases h : e.1 = k
    · simp [List.filter_cons, h]
    · simp [List.filter_cons, h, List.find?_cons]

theorem storeGet_sweep_storeSet (s : Store) (k : IdKey) (v : DedupRecord) (now : ℤ)
    (hlive : ¬ v.timestamp < now - 300000) :
    storeGet (sweepStore (storeSet s k v) now) k = some v := by
  unfold storeGet storeSet sweepStore
  induction s with
  | nil => simp [List.filter_cons, hlive]
  | cons e t ih =>
    by_cases h : e.1 = k
    · simpa [List.filter_cons, h] using ih
    · by_cases h2 : e.2.timestamp < now - 300000
      · simpa [List.filter_cons, h, h2] using ih
      · simpa [List.filter_cons, h, h2, List.find?_cons] using ih

theorem storeGet_mem {s : Store} {k : IdKey} {v : DedupRecord}
    (h : storeGet s k = some v) : ∃ k', (k', v) ∈ s := by
  unfold storeGet at h
  rcases Option.map_eq_some'.mp h with ⟨e, he, hev⟩
  obtain ⟨k2, v2⟩ := e
  cases hev
  exact ⟨k2, List.mem_of_find?_eq_some he⟩

theorem dedupHit_eq_some {s : Store} {k : IdKey} {now : ℤ} {b : ResponseBody}
    (h : dedupHit s k now = some b) :
    ∃ r, storeGet s k = some r ∧ r.response = b := by
  unfold dedupHit at h
  cases hg : storeGet s k with
  | none => rw [hg] at h; exact absurd h (by simp)
  | some r =>
    rw [hg] at h
    have h' : (if now - r.timestamp < 300000 then some r.response else none) = some b := h
    by_cases ht : now - r.timestamp < 300000
    · rw [if_pos ht] at h'
      exact ⟨r, rfl, Option.some.inj h'⟩
    · rw [if_neg ht] at h'
      simp at h'

theorem storeWellFormed_storeSet {s : Store} (h : storeWellFormed s) (k : IdKey)
    {v : DedupRecord} (hv : ∃ ref, v.response = .success ref) :
    storeWellFormed (storeSet s k v) := by
  intro e he
  rcases List.mem_append.mp he with h1 | h1
  · exact h e (List.mem_of_mem_filter h1)
  · rcases List.mem_singleton.mp h1 with rfl
    exact hv

theorem storeWellFormed_sweep {s : Store} (h : storeWellFormed s) (now : ℤ) :
    storeWellFormed (sweepStore s now) :=
  fun e he => h e (List.mem_of_mem_filter he)

end StoreLemmas

/-- The schema check, spelled out as a proposition. -/
theorem submitSchemaCheck_iff (p : SubmitPayload) :
    submitSchemaCheck p = true ↔
      (-90 ≤ p.lat ∧ p.lat ≤ 90 ∧ -180 ≤ p.lon ∧ p.lon ≤ 180
        ∧ isUuid p.client_nonce = true) := by
  simp [submitSchemaCheck, and_assoc]

/-- C1: for every request whose payload has `lat` outside [-90, 90], or
`lon` outside [-180, 180], or a `client_nonce` that is not a UUID, the POST
handler returns HTTP 400 with body `{status:"error", code:"bad_request",
message:"Invalid request data"}`, the outbound email transport is never
invoked, and the deduplication store is untouched. -/
theorem c1_invalid_payload_rejected (cfg : Config) (g : Bool) (now : ℤ)
    (tr : TransportOutcome) (sw : Bool) (store : Store) (p : SubmitPayload)
    (h : p.lat < -90 ∨ 90 < p.lat ∨ p.lon < -180 ∨ 180 < p.lon
      ∨ isUuid p.client_nonce = false) :
    POST cfg g now tr sw store p =
      { status := 400, body := .error "bad_request" "Invalid request data",
        store := store, transportInvoked := false } := by
  have hs : submitSchemaCheck p = false := by
    rcases h with h | h | h | h | h
    · simp [submitSchemaCheck, decide_eq_false (not_le.mpr h)]
    · simp [submitSchemaCheck, decide_eq_false (not_le.mpr h)]
    · simp [submitSchemaCheck, decide_eq_false (not_le.mpr h)]
    · simp [submitSchemaCheck, decide_eq_false (not_le.mpr h)]
    · simp [submitSchemaCheck, h]
  simp [POST, hs]

/-- C1 witness: the spec's concrete scenario `lat: 200` is rejected with
400 `bad_request` and no transport call. -/
theorem c1_invalid_payload_rejected_witness :
    POST keyedConfig false 0 (.ok "email_123") false [] { samplePayload with lat := 200 } =
      { status := 400, body := .error "bad_request" "Invalid request data",
        store := [], transportInvoked := false } :=
  c1_invalid_payload_rejected keyedConfig false 0 (.ok "email_123") false []
    { samplePayload with lat := 200 } (Or.inr (Or.inl (by norm_num [samplePayload])))

/-- C2 counterexample: a payload whose `accuracy` is the negative number
-5 passes the schema check (the validator does not constrain `accuracy`),
and the handler proceeds to the dispatcher and invokes the transport
instead of returning 400. -/
theorem c2_counterexample :
    submitSchemaCheck { plainPayload with accuracy := some (-5) } = true
      ∧ (POST keyedConfig false 0 (.ok "email_123") false []
          { plainPayload with accuracy := some (-5) }).transportInvoked = true
      ∧ (POST keyedConfig false 0 (.ok "email_123") false []
          { plainPayload with accuracy := some (-5) }).status = 200 := by
  refine ⟨by decide, ?_, ?_⟩ <;> rfl

/-- C2 as amended: the validator does not inspect `accuracy` at all — a
payload with any (in particular negative) accuracy validates exactly as the
same payload with `accuracy` absent — and a valid payload carrying a
negative accuracy is not rejected: on a store miss with the transport key
configured it reaches the dispatcher and the outbound transport is
invoked. -/
theorem c2_negative_accuracy_accepted (p : SubmitPayload) (a : ℚ) (cfg : Config)
    (now : ℤ) (tr : TransportOutcome) (sw : Bool) (store : Store)
    (_ha : a < 0)
    (hv : submitSchemaCheck p = true)
    (hmiss : dedupHit store (getIdempotencyKey p now) now = none)
    (hkey : jsTruthyStr cfg.resendApiKey = true) :
    submitSchemaCheck { p with accuracy := some a } = true
      ∧ (POST cfg false now tr sw store { p with accuracy := some a }).transportInvoked
          = true := by
  have hv' : submitSchemaCheck { p with accuracy := some a } = true := hv
  have hmiss' : dedupHit store (getIdempotencyKey { p with accuracy := some a } now) now
      = none := hmiss
  refine ⟨hv', ?_⟩
  cases tr <;> simp [POST, hv', hmiss', sendEmailReport, hkey]

/-- C2 witness: the amended theorem at accuracy -5 on the empty store. -/
theorem c2_negative_accuracy_accepted_witness :
    submitSchemaCheck { plainPayload with accuracy := some (-5) } = true
      ∧ (POST keyedConfig false 0 (.ok "email_123") false []
          { plainPayload with accuracy := some (-5) }).transportInvoked = true :=
  c2_negative_accuracy_accepted plainPayload (-5) keyedConfig 0 (.ok "email_123") false []
    (by norm_num) (by decide) rfl rfl

/-- C3: for ANY two valid payloads with identical fingerprint — equal
rounded-to-4-decimals coordinates, minute bucket and `client_nonce`; they
may differ in message, photo, accuracy or deeper coordinate decimals —
where the first dispatch succeeded and the second arrives within the
5-minute trailing window, the second call returns the identical response
body with HTTP 200, leaves the store unchanged, and does not invoke the
transport — so the transport is invoked exactly once across the two
requests. -/
theorem c3_duplicate_suppressed (cfg : Config) (sw1 sw2 : Bool) (store : Store)
    (p1 p2 : SubmitPayload) (t1 t2 : ℤ) (ref : String) (tr2 : TransportOutcome)
    (hv1 : submitSchemaCheck p1 = true)
    (hv2 : submitSchemaCheck p2 = true)
    (hmiss : dedupHit store (getIdempotencyKey p1 t1) t1 = none)
    (hkey : jsTruthyStr cfg.resendApiKey = true)
    (hfp : getIdempotencyKey p2 t2 = getIdempotencyKey p1 t1)
    (_hle : t1 ≤ t2) (hwin : t2 - t1 < 300000) :
    (POST cfg false t1 (.ok ref) sw1 store p1).body = .success ref
    ∧ (POST cfg false t1 (.ok ref) sw1 store p1).transportInvoked = true
    ∧ POST cfg false t2 tr2 sw2 (POST cfg false t1 (.ok ref) sw1 store p1).store p2 =
        { status := 200, body := .success ref,
          store := (POST cfg false t1 (.ok ref) sw1 store p1).store,
          transportInvoked := false } := by
  have hr1 : POST cfg false t1 (.ok ref) sw1 store p1 =
      { status := 200, body := .success ref,
        store := (if sw1 then
            sweepStore (storeSet store (getIdempotencyKey p1 t1) ⟨t1, .success ref⟩) t1
          else storeSet store (getIdempotencyKey p1 t1) ⟨t1, .success ref⟩),
        transportInvoked := true } := by
    simp [POST, hv1, hmiss, sendEmailReport, hkey]
  set s1 : Store := (POST cfg false t1 (.ok ref) sw1 store p1).store with hs1
  have hget : storeGet s1 (getIdempotencyKey p1 t1) = some ⟨t1, .success ref⟩ := by
    rw [hs1, hr1]
    cases sw1 with
    | false => simpa using storeGet_storeSet_self store _ _
    | true =>
      simpa using storeGet_sweep_storeSet store (getIdempotencyKey p1 t1)
        ⟨t1, .success ref⟩ t1 (by show ¬ (t1 : ℤ) < t1 - 300000; omega)
  have hhit : dedupHit s1 (getIdempotencyKey p2 t2) t2 = some (.success ref) := by
    rw [hfp]
    simp [dedupHit, hget, hwin]
  exact ⟨by rw [hr1], by rw [hr1], by simp [POST, hv2, hhit]⟩

/-- C3 witness: a first submission of `plainPayload` at t=0, then a second
submission at t=59999 ms of `dupPayload` — a different payload (different
message, accuracy and 5th latitude decimal) with the same fingerprint —
receives the first's cached body without a second transport call. -/
theorem c3_duplicate_suppressed_witness :
    (POST keyedConfig false 0 (.ok "email_123") false [] plainPayload).body
        = .success "email_123"
    ∧ (POST keyedConfig false 0 (.ok "email_123") false [] plainPayload).transportInvoked
        = true
    ∧ POST keyedConfig false 59999 (.ok "email_456") false
          (POST keyedConfig false 0 (.ok "email_123") false [] plainPayload).store
          dupPayload =
        { status := 200, body := .success "email_123",
          store := (POST keyedConfig false 0 (.ok "email_123") false [] plainPayload).store,
          transportInvoked := false } :=
  c3_duplicate_suppressed keyedConfig false false [] plainPayload dupPayload 0 59999
    "email_123" (.ok "email_456") (by decide)
    ((submitSchemaCheck_iff _).mpr
      ⟨by norm_num [dupPayload, plainPayload],
       by norm_num [dupPayload, plainPayload],
       by norm_num [dupPayload, plainPayload],
       by norm_num [dupPayload, plainPayload], by decide⟩)
    rfl rfl
    (by unfold getIdempotencyKey jsRound dupPayload plainPayload; norm_num)
    (by decide) (by decide)

/-- C4: on a cache miss, when the transport call times out or returns a
non-success status, the handler returns HTTP 500 `server_error` and the
record store is left exactly as it was — the deduplication record is
written only after a successful dispatch, never before, so an immediate
retry can still reach the transport. -/
theorem c4_failed_dispatch_writes_nothing (cfg : Config) (now : ℤ)
    (tr : TransportOutcome) (sw : Bool) (store : Store) (p : SubmitPayload)
    (hv : submitSchemaCheck p = true)
    (hmiss : dedupHit store (getIdempotencyKey p now) now = none)
    (hkey : jsTruthyStr cfg.resendApiKey = true)
    (hfail : tr = .timeout ∨ ∃ st b, tr = .httpError st b) :
    POST cfg false now tr sw store p =
      { status := 500, body := .error "server_error" "Internal server error",
        store := store, transportInvoked := true } := by
  rcases hfail with h | ⟨st, b, h⟩ <;> subst h <;>
    simp [POST, hv, hmiss, sendEmailReport, hkey]

/-- C4 witness: a transport timeout on the empty store yields 500 and the
store stays empty. -/
theorem c4_failed_dispatch_writes_nothing_witness :
    POST keyedConfig false 0 .timeout false [] plainPayload =
      { status := 500, body := .error "server_error" "Internal server error",
        store := [], transportInvoked := true } :=
  c4_failed_dispatch_writes_nothing keyedConfig 0 .timeout false [] plainPayload
    (by decide) rfl rfl (Or.inl rfl)

/-- C5: once the 5-minute trailing window measured from a record's creation
has elapsed, the lookup treats the record as absent (it is never served as
a hit) and a repeat submission with the same fingerprint triggers a fresh
transport call. -/
theorem c5_expired_record_is_miss (cfg : Config) (now : ℤ) (tr : TransportOutcome)
    (sw : Bool) (store : Store) (p : SubmitPayload) (r : DedupRecord)
    (hv : submitSchemaCheck p = true)
    (hrec : storeGet store (getIdempotencyKey p now) = some r)
    (hexp : 300000 ≤ now - r.timestamp)
    (hkey : jsTruthyStr cfg.resendApiKey = true) :
    dedupHit store (getIdempotencyKey p now) now = none
      ∧ (POST cfg false now tr sw store p).transportInvoked = true := by
  have hmiss : dedupHit store (getIdempotencyKey p now) now = none := by
    simp only [dedupHit, hrec]
    simp only [if_neg (by omega : ¬ now - r.timestamp < 300000)]
  refine ⟨hmiss, ?_⟩
  cases tr <;> simp [POST, hv, hmiss, sendEmailReport, hkey]

/-- C5 witness: a record created at t=0 is expired at t=600000 (minute
bucket 10) and the repeat submission reaches the transport. -/
theorem c5_expired_record_is_miss_witness :
    dedupHit [(((37 : ℚ), (-122 : ℚ), (10 : ℤ), "a0d4b216-f4cf-4219-822b-f83e49a6cccb"),
        ⟨0, .success "email_old"⟩)]
        (getIdempotencyKey plainPayload 600000) 600000 = none
    ∧ (POST keyedConfig false 600000 (.ok "email_new") false
        [(((37 : ℚ), (-122 : ℚ), (10 : ℤ), "a0d4b216-f4cf-4219-822b-f83e49a6cccb"),
          ⟨0, .success "email_old"⟩)]
        plainPayload).transportInvoked = true := by
  have hk : getIdempotencyKey plainPayload 600000 =
      ((37 : ℚ), (-122 : ℚ), (10 : ℤ), "a0d4b216-f4cf-4219-822b-f83e49a6cccb") := by
    unfold getIdempotencyKey jsRound plainPayload
    norm_num
  exact c5_expired_record_is_miss keyedConfig 600000 (.ok "email_new") false _
    plainPayload ⟨0, .success "email_old"⟩ (by decide)
    (by rw [hk]; simp [storeGet]) (by norm_num) rfl

/-- C6: when the transport API key is absent from configuration, dispatch
fails before any outbound transport call is attempted and the client
receives HTTP 500 `server_error`, exactly as for a transport failure. -/
theorem c6_missing_transport_key (cfg : Config) (now : ℤ) (tr : TransportOutcome)
    (sw : Bool) (store : Store) (p : SubmitPayload)
    (hv : submitSchemaCheck p = true)
    (hmiss : dedupHit store (getIdempotencyKey p now) now = none)
    (hnokey : jsTruthyStr cfg.resendApiKey = false) :
    POST cfg false now tr sw store p =
      { status := 500, body := .error "server_error" "Internal server error",
        store := store, transportInvoked := false } := by
  simp [POST, hv, hmiss, sendEmailReport, hnokey]

/-- C6 witness: no `RESEND_API_KEY` configured, healthy transport — still
500 `server_error` with the fetch never reached. -/
theorem c6_missing_transport_key_witness :
    POST { resendApiKey := none, senderEmail := none, cityOperationsEmail := none }
        false 0 (.ok "email_123") false [] plainPayload =
      { status := 500, body := .error "server_error" "Internal server error",
        store := [], transportInvoked := false } :=
  c6_missing_transport_key _ 0 (.ok "email_123") false [] plainPayload
    (by decide) rfl rfl

/-- C7 counterexample: a payload that supplies `accuracy` with the value 0
gets no accuracy annotation — `data.accuracy` is falsy in JS — so the body
is byte-identical to the body of the same payload without accuracy,
refuting "an accuracy annotation exactly when accuracy is supplied". -/
theorem c7_counterexample :
    ({ samplePayload with accuracy := some 0 } : SubmitPayload).accuracy.isSome = true
    ∧ accMark ({ samplePayload with accuracy := some 0 } : SubmitPayload).accuracy = ""
    ∧ buildEmailText { samplePayload with accuracy := some 0 } "cid-1" 1700000000000
        = buildEmailText { samplePayload with accuracy := none } "cid-1" 1700000000000 :=
  ⟨rfl, rfl, rfl⟩

/-- C7 as amended: for every validated payload the report body is the
deterministic template embedding the ISO-8601 timestamp (of the supplied
epoch time when present and nonzero, else the receipt time), the
coordinates fixed to 6 decimal places, an accuracy annotation exactly when
accuracy is supplied and nonzero, the `client_nonce` as Report ID, the
correlation identifier, and the user message — or the fixed placeholder
"No message provided." when the message is absent or empty. -/
theorem c7_report_body (data : SubmitPayload) (cid : String) (now : ℤ) :
    buildEmailText data cid now =
      "Source: QR-Driven Garbage Reporting Webapp\nWhen: "
        ++ epochMsToIso (effectiveWhen data.timestamp now)
        ++ "\nWhere: " ++ toFixedQ data.lat 6 ++ "," ++ toFixedQ data.lon 6 ++ " "
        ++ accMark data.accuracy
        ++ "\nReport ID: " ++ data.client_nonce
        ++ "\nCorrelation ID: " ++ cid
        ++ "\n\n---\nUser Message:\n" ++ msgOrPlaceholder data.message ++ "\n---"
    ∧ (∀ a : ℚ, a ≠ 0 → accMark (some a) = "(±" ++ toString (jsRound a) ++ "m)")
    ∧ accMark (some 0) = "" ∧ accMark (none : Option ℚ) = ""
    ∧ (∀ m : String, m ≠ "" → msgOrPlaceholder (some m) = m)
    ∧ msgOrPlaceholder (some "") = "No message provided."
    ∧ msgOrPlaceholder (none : Option String) = "No message provided." := by
  refine ⟨rfl, ?_, rfl, rfl, ?_, rfl, rfl⟩
  · intro a ha
    simp [accMark, ha]
  · intro m hm
    simp [msgOrPlaceholder, hm]

/-- C7 witness: the amended theorem applied at a nonzero accuracy and a
nonempty message. -/
theorem c7_report_body_witness :
    accMark (some 7) = "(±7m)" ∧ msgOrPlaceholder (some "hi") = "hi" := by
  constructor
  · have h7 := (c7_report_body samplePayload "cid-1" 0).2.1 7 (by norm_num)
    have hj : jsRound 7 = 7 := by norm_num [jsRound]
    rw [h7, hj]
    rfl
  · exact (c7_report_body samplePayload "cid-1" 0).2.2.2.2.1 "hi" (by decide)

/-- C8 counterexample: a payload that supplies `photoBase64` as the empty
string gets no attachment — the string is falsy in JS — refuting "exactly
one attachment if and only if a photo was supplied". -/
theorem c8_counterexample :
    ({ samplePayload with photoBase64 := some "" } : SubmitPayload).photoBase64.isSome
        = true
    ∧ buildAttachments
        ({ samplePayload with photoBase64 := some "" } : SubmitPayload).photoBase64 = []
    ∧ (buildEmailPayload keyedConfig { samplePayload with photoBase64 := some "" }
        "cid-1" 0).attachments = [] :=
  ⟨rfl, rfl, rfl⟩

/-- C8 as amended: the envelope contains exactly one attachment iff a
non-empty photo string was supplied (a supplied empty string, being falsy,
yields none); the attachment's content is `photoBase64.split(",")[1]` — for
a data URL, the raw base64 payload after the MIME prefix and separator —
and the attachments list is empty when no photo is supplied. -/
theorem c8_attachment_policy (cfg : Config) (data : SubmitPayload) (cid : String)
    (now : ℤ) :
    (buildEmailPayload cfg data cid now).attachments = buildAttachments data.photoBase64
    ∧ buildAttachments (none : Option String) = []
    ∧ buildAttachments (some "") = []
    ∧ (∀ s : String, s ≠ "" → buildAttachments (some s) =
        [{ filename := "photo.jpg", content := (jsSplit s ',')[1]? }])
    ∧ (∀ s pre d : String, s ≠ "" → jsSplit s ',' = [pre, d] →
        buildAttachments (some s) = [{ filename := "photo.jpg", content := some d }]) := by
  refine ⟨rfl, rfl, rfl, ?_, ?_⟩
  · intro s hs
    simp [buildAttachments, hs]
  · intro s pre d hs hsplit
    simp [buildAttachments, hs, hsplit]

/-- C8 witness: a data-URL photo produces exactly one attachment holding
the raw base64 payload after the comma. -/
theorem c8_attachment_policy_witness :
    buildAttachments (some "data:image/jpeg;base64,QUJD") =
      [{ filename := "photo.jpg", content := some "QUJD" }] :=
  (c8_attachment_policy keyedConfig samplePayload "cid-1" 0).2.2.2.2
    "data:image/jpeg;base64,QUJD" "data:image/jpeg;base64" "QUJD"
    (by decide) (by decide)

/-- C9 counterexample: with the gate enabled, a valid payload whose
coordinates lie outside the rectangle is NOT rejected with
`out_of_bounds` when a live duplicate record exists — the gate sits after
the deduplication lookup, not between validation and deduplication.  An
in-bounds submission at 37.83238 succeeds and writes a record; an
out-of-bounds submission at 37.83242 (north of the boundary, same rounded
coordinates, nonce and minute bucket) then receives the cached success
response with HTTP 200 instead of 400 `out_of_bounds`. -/
theorem c9_counterexample :
    isInSanFrancisco outOfBoundsPayload.lat outOfBoundsPayload.lon = false
    ∧ submitSchemaCheck outOfBoundsPayload = true
    ∧ POST keyedConfig true 0 (.ok "email_2") false
        (POST keyedConfig true 0 (.ok "email_1") false [] inBoundsPayload).store
        outOfBoundsPayload =
      { status := 200, body := .success "email_1",
        store := (POST keyedConfig true 0 (.ok "email_1") false [] inBoundsPayload).store,
        transportInvoked := false } := by
  have hout : isInSanFrancisco outOfBoundsPayload.lat outOfBoundsPayload.lon = false := by
    simp only [isInSanFrancisco, SF_BOUNDS, outOfBoundsPayload, plainPayload]
    norm_num
  have hin : isInSanFrancisco inBoundsPayload.lat inBoundsPayload.lon = true := by
    simp only [isInSanFrancisco, SF_BOUNDS, inBoundsPayload, plainPayload]
    norm_num
  have hv1 : submitSchemaCheck inBoundsPayload = true :=
    (submitSchemaCheck_iff _).mpr
      ⟨by norm_num [inBoundsPayload, plainPayload],
       by norm_num [inBoundsPayload, plainPayload],
       by norm_num [inBoundsPayload, plainPayload],
       by norm_num [inBoundsPayload, plainPayload], by decide⟩
  have hv2 : submitSchemaCheck outOfBoundsPayload = true :=
    (submitSchemaCheck_iff _).mpr
      ⟨by norm_num [outOfBoundsPayload, plainPayload],
       by norm_num [outOfBoundsPayload, plainPayload],
       by norm_num [outOfBoundsPayload, plainPayload],
       by norm_num [outOfBoundsPayload, plainPayload], by decide⟩
  have hkeq : getIdempotencyKey outOfBoundsPayload 0 = getIdempotencyKey inBoundsPayload 0 := by
    unfold getIdempotencyKey jsRound outOfBoundsPayload inBoundsPayload plainPayload
    norm_num
  have hr1 : POST keyedConfig true 0 (.ok "email_1") false [] inBoundsPayload =
      { status := 200, body := .success "email_1",
        store := storeSet [] (getIdempotencyKey inBoundsPayload 0)
          ⟨0, .success "email_1"⟩,
        transportInvoked := true } := by
    simp [POST, hv1, hin, dedupHit, storeGet, sendEmailReport, keyedConfig, jsTruthyStr]
  set s1 : Store := (POST keyedConfig true 0 (.ok "email_1") false [] inBoundsPayload).store
    with hs1
  have hhit : dedupHit s1 (getIdempotencyKey outOfBoundsPayload 0) 0 =
      some (.success "email_1") := by
    rw [hs1, hr1, hkeq]
    simp [dedupHit, storeGet_storeSet_self]
  exact ⟨hout, hv2, by simp [POST, hv2, hhit]⟩

/-- C9 as amended: `isInSanFrancisco` accepts a coordinate pair exactly
when `lat` lies in [south, north] and `lon` in [west, east] of the
configured rectangle; and the gate — present only as a commented-out block
placed between the deduplication lookup and dispatch, not between
validation and deduplication — rejects, when enabled, any valid
NON-DUPLICATE payload with out-of-rectangle coordinates with HTTP 400 and
the distinct code `out_of_bounds`, before any transport call. -/
theorem c9_bounds_gate (lat lon : ℚ) (cfg : Config) (now : ℤ) (tr : TransportOutcome)
    (sw : Bool) (store : Store) (p : SubmitPayload)
    (hv : submitSchemaCheck p = true)
    (hmiss : dedupHit store (getIdempotencyKey p now) now = none)
    (hout : isInSanFrancisco p.lat p.lon = false) :
    (isInSanFrancisco lat lon = true ↔
      (SF_BOUNDS.south ≤ lat ∧ lat ≤ SF_BOUNDS.north
        ∧ SF_BOUNDS.west ≤ lon ∧ lon ≤ SF_BOUNDS.east))
    ∧ POST cfg true now tr sw store p =
        { status := 400,
          body := .error "out_of_bounds" "Location must be within San Francisco city limits",
          store := store, transportInvoked := false } := by
  constructor
  · simp [isInSanFrancisco, and_assoc]
  · simp [POST, hv, hmiss, hout]

/-- C9 witness: with the gate enabled, the out-of-bounds payload on an
empty store is rejected with 400 `out_of_bounds` and no transport call. -/
theorem c9_bounds_gate_witness :
    (isInSanFrancisco 37.77 (-122.42) = true ↔
      (SF_BOUNDS.south ≤ (37.77 : ℚ) ∧ (37.77 : ℚ) ≤ SF_BOUNDS.north
        ∧ SF_BOUNDS.west ≤ (-122.42 : ℚ) ∧ (-122.42 : ℚ) ≤ SF_BOUNDS.east))
    ∧ POST keyedConfig true 0 (.ok "email_123") false [] outOfBoundsPayload =
        { status := 400,
          body := .error "out_of_bounds" "Location must be within San Francisco city limits",
          store := [], transportInvoked := false } :=
  c9_bounds_gate 37.77 (-122.42) keyedConfig 0 (.ok "email_123") false []
    outOfBoundsPayload
    ((submitSchemaCheck_iff _).mpr
      ⟨by norm_num [outOfBoundsPayload, plainPayload],
       by norm_num [outOfBoundsPayload, plainPayload],
       by norm_num [outOfBoundsPayload, plainPayload],
       by norm_num [outOfBoundsPayload, plainPayload], by decide⟩)
    rfl
    (by simp only [isInSanFrancisco, SF_BOUNDS, outOfBoundsPayload, plainPayload]; norm_num)

/-- C10: with the gate disabled (as deployed), the handler never returns a
response with code `out_of_bounds`: starting from any store whose records
all cache success envelopes (the only records the handler ever writes),
every response body is a success envelope, the generic 400 `bad_request`
body, or the generic 500 `server_error` body — and the store stays
well-formed, so the property is an invariant across requests. -/
theorem c10_no_out_of_bounds (cfg : Config) (now : ℤ) (tr : TransportOutcome)
    (sw : Bool) (store : Store) (p : SubmitPayload)
    (hwf : storeWellFormed store) :
    ((∃ ref, (POST cfg false now tr sw store p).body = .success ref)
      ∨ (POST cfg false now tr sw store p).body = .error "bad_request" "Invalid request data"
      ∨ (POST cfg false now tr sw store p).body
          = .error "server_error" "Internal server error")
    ∧ storeWellFormed (POST cfg false now tr sw store p).store := by
  by_cases hv : submitSchemaCheck p = true
  · cases hhit : dedupHit store (getIdempotencyKey p now) now with
    | some cached =>
      have hpost : POST cfg false now tr sw store p =
          { status := 200, body := cached, store := store, transportInvoked := false } := by
        simp [POST, hv, hhit]
      obtain ⟨r, hg, hc⟩ := dedupHit_eq_some hhit
      obtain ⟨k', hk⟩ := storeGet_mem hg
      obtain ⟨ref, href⟩ := hwf _ hk
      rw [hpost]
      exact ⟨Or.inl ⟨ref, by rw [← hc]; exact href⟩, hwf⟩
    | none =>
      rcases hsend : sendEmailReport cfg p "" tr with ⟨res, inv⟩
      cases res with
      | ok ref =>
        have hpost : POST cfg false now tr sw store p =
            { status := 200, body := .success ref,
              store := (if sw then
                  sweepStore (storeSet store (getIdempotencyKey p now)
                    ⟨now, .success ref⟩) now
                else storeSet store (getIdempotencyKey p now) ⟨now, .success ref⟩),
              transportInvoked := inv } := by
          simp [POST, hv, hhit, hsend]
        rw [hpost]
        refine ⟨Or.inl ⟨ref, rfl⟩, ?_⟩
        have hset := storeWellFormed_storeSet hwf (getIdempotencyKey p now)
          (v := ⟨now, .success ref⟩) ⟨ref, rfl⟩
        cases sw with
        | false => simpa using hset
        | true => simpa using storeWellFormed_sweep hset now
      | failed e =>
        have hpost : POST cfg false now tr sw store p =
            { status := 500, body := .error "server_error" "Internal server error",
              store := store, transportInvoked := inv } := by
          simp [POST, hv, hhit, hsend]
        rw [hpost]
        exact ⟨Or.inr (Or.inr rfl), hwf⟩
  · have hv' : submitSchemaCheck p = false := by simpa using hv
    have hpost : POST cfg false now tr sw store p =
        { status := 400, body := .error "bad_request" "Invalid request data",
          store := store, transportInvoked := false } := by
      simp [POST, hv']
    rw [hpost]
    exact ⟨Or.inr (Or.inl rfl), hwf⟩

/-- C10 witness: the invariant applied to a successful request on the empty
store. -/
theorem c10_no_out_of_bounds_witness :
    ((∃ ref, (POST keyedConfig false 0 (.ok "email_123") false [] plainPayload).body
        = .success ref)
      ∨ (POST keyedConfig false 0 (.ok "email_123") false [] plainPayload).body
          = .error "bad_request" "Invalid request data"
      ∨ (POST keyedConfig false 0 (.ok "email_123") false [] plainPayload).body
          = .error "server_error" "Internal server error")
    ∧ storeWellFormed
        (POST keyedConfig false 0 (.ok "email_123") false [] plainPayload).store :=
  c10_no_out_of_bounds keyedConfig 0 (.ok "email_123") false [] plainPayload
    (by intro e he; cases he)
